import Mathlib

/-!
Shallow embedding of the physical-state update model of `kerr_lab.py`
(class `KerrLabFinal`): the simulation parameters, the per-particle and
grid-mesh state, the per-frame `update` step, the key handlers, and the
horizon-geometry recomputation. Rendering (matplotlib artists, colors,
HUD text) is out of scope; only the numeric state they consume is
modelled. Machine floats are modelled as real numbers; the quiet NaN of
NumPy is modelled by `Option ℝ` with `none` standing for NaN.
-/

/-- Tuning constant `self.speed_mult = 0.15` (orbital speed multiplier). -/
def speed_mult : ℝ := 0.15

/-- Tuning constant `self.drag_strength = 0.5` (how much space twists). -/
def drag_strength : ℝ := 0.5

/-- Tuning constant `self.drag_power = 2.0` (falloff power of dragging). -/
def drag_power : ℝ := 2.0

/-- Number of accretion-disk particles, `self.n_particles = 800`. -/
def n_particles : ℕ := 800

/-- The fixed grid radii `self.grid_r = np.linspace(1.1, 9, 15)`:
`grid_r j = 1.1 + j · (9 − 1.1) / 14`. -/
noncomputable def grid_r (j : Fin 15) : ℝ := 1.1 + (j : ℝ) * (9 - 1.1) / 14

/-- The initial grid azimuths `self.grid_phi = np.linspace(0, 2π, 25)`. -/
noncomputable def grid_phi (i : Fin 25) : ℝ := (i : ℝ) * (2 * Real.pi) / 24

/-- The mutable state of `KerrLabFinal` that the core update procedures read
and write: simulation parameters, mode flags, the particle parallel arrays
(`p_r`, `p_phi`, `p_z`), and the grid azimuth mesh `P` (the radius mesh `R`
is constant, see `grid_r`; colors and matplotlib artists are rendering
state and are not part of the model). -/
structure SimState where
  M : ℝ
  a : ℝ
  paused : Bool
  newtonian_mode : Bool
  info_mode : ℕ
  p_r : Fin 800 → ℝ
  p_phi : Fin 800 → ℝ
  p_z : Fin 800 → ℝ
  P : Fin 25 → Fin 15 → ℝ
  deriving Inhabited

/-- `np.sqrt` on a scalar: for a negative argument NumPy returns NaN (with a
`RuntimeWarning`), it does not raise `ValueError`. `none` models NaN. -/
noncomputable def np_sqrt (x : ℝ) : Option ℝ :=
  if 0 ≤ x then some (Real.sqrt x) else none

/-- The horizon-radius computation of `KerrLabFinal.update_geometry`
(lines 134-137):

    try:
        r_plus = self.M + np.sqrt(self.M**2 - self.a**2)
    except ValueError:
        r_plus = self.M # Fallback if a > M (Naked singularity), ...

Since `np.sqrt` never raises `ValueError` (it returns NaN, see `np_sqrt`),
the `except` branch is unreachable and the NaN propagates through the
addition: the result is `none` (NaN) whenever the discriminant is
negative. -/
noncomputable def recompute (M a : ℝ) : Option ℝ :=
  (np_sqrt (M ^ 2 - a ^ 2)).map (fun s => M + s)

/-- The grid height profile computed afresh each tick inside
`KerrLabFinal.update` (lines 209 and 213): relativistic
`Z = -7 + (-3.0 * M / r)`, Newtonian `Z = -7 + (-1.0 / r)`. -/
noncomputable def gridHeight (newt : Bool) (M r : ℝ) : ℝ :=
  if newt then -7 + (-1.0 / r) else -7 + (-3.0 * M / r)

/-- The grid height array a tick renders, as a function of the state: cell
`(i, j)` has height `gridHeight newtonian_mode M (grid_r j)`. It is derived
per tick (never stored or accumulated). -/
noncomputable def Z_grid (s : SimState) : Fin 25 → Fin 15 → ℝ :=
  fun _ j => gridHeight s.newtonian_mode s.M (grid_r j)

/-- One animation tick, `KerrLabFinal.update` (lines 188-221): if paused,
return with no state change; otherwise advance every particle azimuth by
`omega * speed_mult` with `omega = (1.5 * M) * p_r ** (-1.5)`, and, unless
in Newtonian mode, twist every grid azimuth by
`(a * drag_strength) / R ** drag_power`. Heights and Cartesian positions
are derived outputs (`Z_grid`), not state. -/
noncomputable def update (s : SimState) : SimState :=
  if s.paused then s
  else
    { s with
      p_phi := fun i =>
        s.p_phi i + (1.5 * s.M) * (s.p_r i) ^ (-1.5 : ℝ) * speed_mult,
      P := if s.newtonian_mode then s.P
        else fun i j => s.P i j + (s.a * drag_strength) / (grid_r j) ^ drag_power }

/-- Key handler for the space key (line 225): toggle `paused`. -/
def toggle_paused (s : SimState) : SimState := { s with paused := !s.paused }

/-- Key handler for the E key (lines 226-229): cycle the HUD panel,
`self.info_mode = (self.info_mode + 1) % 4`; the subsequent `update_hud`
and `draw_idle` calls touch only rendering state. -/
def cycle_hud_panel (s : SimState) : SimState :=
  { s with info_mode := (s.info_mode + 1) % 4 }

/-- Key handler for the N key (lines 230-234): flip `newtonian_mode`; the
subsequent `update_geometry` and `update_hud` calls recompute derived
rendering state only (horizon surface, text). -/
def toggle_newtonian (s : SimState) : SimState :=
  { s with newtonian_mode := !s.newtonian_mode }

-- Projection lemmas: which fields a tick leaves untouched.

lemma update_M (s : SimState) : (update s).M = s.M := by
  unfold update; split <;> rfl

lemma update_a (s : SimState) : (update s).a = s.a := by
  unfold update; split <;> rfl

lemma update_paused (s : SimState) : (update s).paused = s.paused := by
  unfold update; split <;> rfl

lemma update_newtonian (s : SimState) :
    (update s).newtonian_mode = s.newtonian_mode := by
  unfold update; split <;> rfl

lemma update_p_r (s : SimState) : (update s).p_r = s.p_r := by
  unfold update; split <;> rfl

lemma update_p_z (s : SimState) : (update s).p_z = s.p_z := by
  unfold update; split <;> rfl

lemma iterate_update_M (s : SimState) (n : ℕ) : (update^[n] s).M = s.M := by
  induction n with
  | zero => rfl
  | succ k ih => rw [Function.iterate_succ_apply', update_M, ih]

lemma iterate_update_paused (s : SimState) (n : ℕ) :
    (update^[n] s).paused = s.paused := by
  induction n with
  | zero => rfl
  | succ k ih => rw [Function.iterate_succ_apply', update_paused, ih]

lemma iterate_update_newtonian (s : SimState) (n : ℕ) :
    (update^[n] s).newtonian_mode = s.newtonian_mode := by
  induction n with
  | zero => rfl
  | succ k ih => rw [Function.iterate_succ_apply', update_newtonian, ih]

lemma iterate_update_p_r (s : SimState) (n : ℕ) :
    (update^[n] s).p_r = s.p_r := by
  induction n with
  | zero => rfl
  | succ k ih => rw [Function.iterate_succ_apply', update_p_r, ih]

lemma iterate_update_p_z (s : SimState) (n : ℕ) :
    (update^[n] s).p_z = s.p_z := by
  induction n with
  | zero => rfl
  | succ k ih => rw [Function.iterate_succ_apply', update_p_z, ih]

lemma iterate_update_a (s : SimState) (n : ℕ) : (update^[n] s).a = s.a := by
  induction n with
  | zero => rfl
  | succ k ih => rw [Function.iterate_succ_apply', update_a, ih]

lemma update_p_phi_of_unpaused (s : SimState) (hp : s.paused = false) :
    (update s).p_phi = fun i =>
      s.p_phi i + (1.5 * s.M) * (s.p_r i) ^ (-1.5 : ℝ) * speed_mult := by
  unfold update; rw [hp]; rfl

lemma update_P_of_newtonian (s : SimState) (hn : s.newtonian_mode = true) :
    (update s).P = s.P := by
  unfold update
  by_cases hp : s.paused
  · rw [if_pos hp]
  · rw [if_neg hp]; simp [hn]

lemma update_P_of_relativistic (s : SimState) (hp : s.paused = false)
    (hn : s.newtonian_mode = false) :
    (update s).P = fun i j =>
      s.P i j + (s.a * drag_strength) / (grid_r j) ^ drag_power := by
  unfold update; rw [hp, hn]; rfl

lemma update_p_z_apply (s : SimState) (i : Fin 800) :
    (update s).p_z i = s.p_z i := by rw [update_p_z]

lemma iterate_update_p_z_apply (s : SimState) (n : ℕ) (i : Fin 800) :
    (update^[n] s).p_z i = s.p_z i := by rw [iterate_update_p_z]

/-- A concrete running state used to instantiate theorems with hypotheses:
unpaused, relativistic, dashboard panel, with the default parameters
`M = 1`, `a = 0.9` and all particles at radius 4. -/
noncomputable def s0 : SimState :=
  { M := 1, a := 0.9, paused := false, newtonian_mode := false, info_mode := 0,
    p_r := fun _ => 4, p_phi := fun _ => 0, p_z := fun _ => 0,
    P := fun _ _ => 0 }

/-- The state `s0` with the simulation paused. -/
noncomputable def s1 : SimState := { s0 with paused := true }

/-- Claim C1 (code bug evidence): at `mass = 0.5`, `spin = 0.99` the
discriminant `M² − a²` is negative, and `recompute` yields NaN (`none`),
not the documented fallback `radius_plus = mass = 0.5`: the `except
ValueError` branch of `update_geometry` never fires because `np.sqrt`
returns NaN instead of raising. -/
theorem C1_naked_singularity_yields_nan :
    recompute 0.5 0.99 = none ∧ recompute 0.5 0.99 ≠ some 0.5 := by
  have h : ¬ (0 : ℝ) ≤ (0.5 : ℝ) ^ 2 - (0.99 : ℝ) ^ 2 := by norm_num
  unfold recompute np_sqrt
  rw [if_neg h]
  exact ⟨rfl, by simp⟩

/-- Claim C5: whenever `mass² ≥ spin²`, `recompute` returns
`radius_plus = mass + sqrt(mass² − spin²)`. -/
theorem C5_recompute_kerr_formula (M a : ℝ) (h : a ^ 2 ≤ M ^ 2) :
    recompute M a = some (M + Real.sqrt (M ^ 2 - a ^ 2)) := by
  unfold recompute np_sqrt
  rw [if_pos (by linarith)]
  rfl

/-- Witness for C5: the Schwarzschild case `recompute(mass=1.0, spin=0.0)`
returns exactly `2.0`. -/
theorem C5_recompute_kerr_formula_witness : recompute 1 0 = some 2 := by
  rw [C5_recompute_kerr_formula 1 0 (by norm_num)]
  norm_num

/-- Claim C8: when `paused` is true, a tick is a no-op on the simulation
state: `update s = s`, so every particle azimuth, every grid azimuth and
all other state are unchanged and the previously computed positions are
returned. -/
theorem C8_paused_tick_is_noop (s : SimState) (hp : s.paused = true) :
    update s = s := by
  unfold update
  rw [hp]
  rfl

/-- Witness for C8: a tick on the concrete paused state `s1` leaves it
unchanged. -/
theorem C8_paused_tick_is_noop_witness : update s1 = s1 :=
  C8_paused_tick_is_noop s1 rfl

/-- Claim C9: the HUD panel cycles among exactly 4 states in a fixed order:
from any panel value (an index below 4), four applications of
`cycle_hud_panel` restore the whole state. -/
theorem C9_hud_cycle_order_four (s : SimState) (h : s.info_mode < 4) :
    cycle_hud_panel^[4] s = s := by
  have key : ((((s.info_mode + 1) % 4 + 1) % 4 + 1) % 4 + 1) % 4 = s.info_mode := by
    omega
  show ({ s with
    info_mode := ((((s.info_mode + 1) % 4 + 1) % 4 + 1) % 4 + 1) % 4 } : SimState) = s
  rw [key]

/-- Witness for C9: cycling the HUD panel four times from the concrete
state `s0` (dashboard panel) restores `s0`. -/
theorem C9_hud_cycle_order_four_witness : cycle_hud_panel^[4] s0 = s0 :=
  C9_hud_cycle_order_four s0 (by norm_num [s0])

/-- Claim C10: cycling the HUD panel touches no physical simulation state:
mass, spin, the paused and Newtonian flags, the particle arrays (radius,
azimuth, height), the grid azimuths and the derived horizon radius are all
unchanged; only the panel index (and the HUD text derived from it)
changes. -/
theorem C10_hud_cycle_preserves_physics (s : SimState) :
    (cycle_hud_panel s).M = s.M ∧
    (cycle_hud_panel s).a = s.a ∧
    (cycle_hud_panel s).paused = s.paused ∧
    (cycle_hud_panel s).newtonian_mode = s.newtonian_mode ∧
    (cycle_hud_panel s).p_r = s.p_r ∧
    (cycle_hud_panel s).p_phi = s.p_phi ∧
    (cycle_hud_panel s).p_z = s.p_z ∧
    (cycle_hud_panel s).P = s.P ∧
    recompute (cycle_hud_panel s).M (cycle_hud_panel s).a = recompute s.M s.a ∧
    (cycle_hud_panel s).info_mode = (s.info_mode + 1) % 4 :=
  ⟨rfl, rfl, rfl, rfl, rfl, rfl, rfl, rfl, rfl, rfl⟩

/-- Claim C2: with the simulation running (not paused), N ticks advance each
particle azimuth by exactly `N · ((1.5 · M · radius^(−1.5)) · 0.15)`: the
per-tick increment is `ω · speed_mult` with `ω = 1.5 · M · radius^(−1.5)`
and `speed_mult = 0.15`, compounding additively. The equality is exact,
hence in particular holds modulo 2π. -/
theorem C2_azimuth_compounding (s : SimState) (N : ℕ) (i : Fin 800)
    (hp : s.paused = false) :
    (update^[N] s).p_phi i =
      s.p_phi i + (N : ℝ) * ((1.5 * s.M) * (s.p_r i) ^ (-1.5 : ℝ)) * 0.15 := by
  induction N with
  | zero => simp
  | succ k ih =>
    have hpk : (update^[k] s).paused = false := by
      rw [iterate_update_paused, hp]
    rw [Function.iterate_succ_apply', update_p_phi_of_unpaused _ hpk]
    simp only [iterate_update_M, iterate_update_p_r]
    rw [ih]
    unfold speed_mult
    push_cast
    ring

/-- Witness for C2: three ticks from the concrete state `s0` advance the
azimuth of particle 0 by exactly `3 · ((1.5 · 1 · 4^(−1.5)) · 0.15)`. -/
theorem C2_azimuth_compounding_witness :
    (update^[3] s0).p_phi 0 =
      s0.p_phi 0 + (3 : ℝ) * ((1.5 * s0.M) * (s0.p_r 0) ^ (-1.5 : ℝ)) * 0.15 := by
  have h := C2_azimuth_compounding s0 3 0 rfl
  rw [h]
  norm_num

/-- Ticks taken in Newtonian mode never move the grid azimuths, whether
paused or not. -/
lemma iterate_update_P_of_newtonian (s : SimState)
    (hn : s.newtonian_mode = true) (m : ℕ) : (update^[m] s).P = s.P := by
  induction m with
  | zero => rfl
  | succ k ih =>
    rw [Function.iterate_succ_apply',
      update_P_of_newtonian _ (by rw [iterate_update_newtonian, hn]), ih]

/-- Claim C3: starting relativistic, running N ticks, toggling to Newtonian,
running M ticks, then toggling back leaves every grid azimuth exactly
where it stood after the first N ticks, for every M: the twist is frozen
while Newtonian, neither reset nor advanced. -/
theorem C3_newtonian_freezes_twist (s : SimState) (N M : ℕ)
    (hn : s.newtonian_mode = false) :
    (toggle_newtonian (update^[M] (toggle_newtonian (update^[N] s)))).P =
      (update^[N] s).P := by
  have h1 : (toggle_newtonian (update^[N] s)).newtonian_mode = true := by
    show (! (update^[N] s).newtonian_mode) = true
    rw [iterate_update_newtonian, hn]
    rfl
  show (update^[M] (toggle_newtonian (update^[N] s))).P = (update^[N] s).P
  rw [iterate_update_P_of_newtonian _ h1]
  rfl

/-- Witness for C3: from the concrete relativistic state `s0`, one tick,
a toggle to Newtonian, two ticks and a toggle back leave the grid azimuths
equal to their values after the first tick. -/
theorem C3_newtonian_freezes_twist_witness :
    (toggle_newtonian (update^[2] (toggle_newtonian (update^[1] s0)))).P =
      (update^[1] s0).P :=
  C3_newtonian_freezes_twist s0 1 2 rfl

/-- Claim C4: the grid height array is pure in (radius, mass, mode): a tick
never changes it (no accumulation), and per cell it is
`−7 + (−3·mass/radius)` in relativistic mode and the mass-independent
`−7 + (−1/radius)` in Newtonian mode. -/
theorem C4_grid_height_pure :
    (∀ s : SimState, Z_grid (update s) = Z_grid s) ∧
      (∀ M r : ℝ, gridHeight false M r = -7 + (-3.0 * M / r)) ∧
      (∀ M r : ℝ, gridHeight true M r = -7 + (-1.0 / r)) := by
  refine ⟨fun s => ?_, fun M r => rfl, fun M r => rfl⟩
  unfold Z_grid
  rw [update_M, update_newtonian]

/-- Claim C6: particle radius and height are invariant across any number of
ticks; only the azimuth changes, and with the simulation running it
strictly increases each tick (the increment `ω · 0.15` is positive for
positive mass and radius). -/
theorem C6_radius_invariant_azimuth_mono (s : SimState) (n : ℕ) (i : Fin 800)
    (hp : s.paused = false) (hM : 0 < s.M) (hr : 0 < s.p_r i) :
    (update^[n] s).p_r i = s.p_r i ∧ (update^[n] s).p_z i = s.p_z i ∧
      (update^[n] s).p_phi i < (update^[n + 1] s).p_phi i := by
  refine ⟨by rw [iterate_update_p_r], by rw [iterate_update_p_z], ?_⟩
  rw [Function.iterate_succ_apply']
  have hpt : (update^[n] s).paused = false := by rw [iterate_update_paused, hp]
  rw [update_p_phi_of_unpaused _ hpt]
  show (update^[n] s).p_phi i < (update^[n] s).p_phi i +
    (1.5 * (update^[n] s).M) * ((update^[n] s).p_r i) ^ (-1.5 : ℝ) * speed_mult
  have hMt : 0 < (update^[n] s).M := by rw [iterate_update_M]; exact hM
  have hrt : 0 < (update^[n] s).p_r i := by rw [iterate_update_p_r]; exact hr
  have hpow : (0 : ℝ) < ((update^[n] s).p_r i) ^ (-1.5 : ℝ) :=
    Real.rpow_pos_of_pos hrt _
  have hsm : (0 : ℝ) < speed_mult := by unfold speed_mult; norm_num
  have hinc : (0 : ℝ) <
      (1.5 * (update^[n] s).M) * ((update^[n] s).p_r i) ^ (-1.5 : ℝ) * speed_mult :=
    mul_pos (mul_pos (mul_pos (by norm_num) hMt) hpow) hsm
  linarith

/-- Witness for C6: from the concrete state `s0`, after two ticks particle 0
keeps radius and height, and its azimuth strictly increases at the next
tick. -/
theorem C6_radius_invariant_azimuth_mono_witness :
    (update^[2] s0).p_r 0 = s0.p_r 0 ∧ (update^[2] s0).p_z 0 = s0.p_z 0 ∧
      (update^[2] s0).p_phi 0 < (update^[3] s0).p_phi 0 :=
  C6_radius_invariant_azimuth_mono s0 2 0 rfl
    (show (0 : ℝ) < 1 by norm_num) (show (0 : ℝ) < 4 by norm_num)

/-- Claim C7: with the simulation running in relativistic mode, each tick
adds exactly `drag = (spin · 0.5) / radius²` to every grid-mesh azimuth
(`drag_strength = 0.5`, `drag_power = 2.0`), and over n ticks the twist
accumulates additively to `n · drag` with no re-basing or wrap-around. -/
theorem C7_frame_drag_accumulates (s : SimState) (hp : s.paused = false)
    (hn : s.newtonian_mode = false) :
    (∀ i j, (update s).P i j =
        s.P i j + (s.a * 0.5) / (grid_r j) ^ (2.0 : ℝ)) ∧
      ∀ n i j, (update^[n] s).P i j =
        s.P i j + (n : ℝ) * ((s.a * 0.5) / (grid_r j) ^ (2.0 : ℝ)) := by
  have hstep : ∀ t : SimState, t.paused = false → t.newtonian_mode = false →
      ∀ i j, (update t).P i j =
        t.P i j + (t.a * 0.5) / (grid_r j) ^ (2.0 : ℝ) := by
    intro t hpt hnt i j
    rw [update_P_of_relativistic t hpt hnt]
    unfold drag_strength drag_power
    rfl
  refine ⟨hstep s hp hn, fun n i j => ?_⟩
  induction n with
  | zero => simp
  | succ k ih =>
    rw [Function.iterate_succ_apply',
      hstep _ (by rw [iterate_update_paused, hp])
        (by rw [iterate_update_newtonian, hn]),
      iterate_update_a, ih]
    push_cast
    ring

/-- Witness for C7: from the concrete state `s0`, one tick adds exactly
`(spin · 0.5) / radius²` to the grid azimuth of cell (0, 0). -/
theorem C7_frame_drag_accumulates_witness :
    (update s0).P 0 0 = s0.P 0 0 + (s0.a * 0.5) / (grid_r 0) ^ (2.0 : ℝ) :=
  (C7_frame_drag_accumulates s0 rfl rfl).1 0 0
